import Mathlib

/-!
Verification development for the transx2gtfs TransXChange-to-GTFS converter.

The Python sources under src/transx2gtfs are shallowly embedded here:
strings are `List Char`, Python `int` is `Int`, raised exceptions are the
`PyError` constructors of an `Except` result, and pandas DataFrames are
lists of records carrying exactly the columns that the modelled logic
reads.  Each embedded definition names the source function it translates.
-/

namespace TransX

/-- Python strings are modelled as lists of characters; `chars` converts a
Lean string literal into that representation. -/
def chars (s : String) : List Char := s.data

/-- `beginsWith p s` holds when `p` is an initial segment of `s`. -/
def beginsWith : List Char → List Char → Bool
  | [], _ => true
  | _ :: _, [] => false
  | p :: ps, c :: cs => p = c && beginsWith ps cs

/-- First occurrence of the (non-empty) separator `sep` in `s`: returns the
text before the occurrence and the text after it, or `none` when `sep` does
not occur in `s`. -/
def splitFirst (sep : List Char) : List Char → Option (List Char × List Char)
  | [] => none
  | c :: cs =>
    if beginsWith sep (c :: cs) then some ([], (c :: cs).drop sep.length)
    else
      match splitFirst sep cs with
      | none => none
      | some (pre, post) => some (c :: pre, post)

/-- Fuelled worker for `pysplit`; the fuel bounds the number of separator
occurrences, so `length s + 1` is always enough for a non-empty separator. -/
def pysplitFuel (sep : List Char) : Nat → List Char → List (List Char)
  | 0, s => [s]
  | fuel + 1, s =>
    match splitFirst sep s with
    | none => [s]
    | some (pre, post) => pre :: pysplitFuel sep fuel post

/-- Python `s.split(sep)` for a non-empty separator: the list of chunks
between consecutive non-overlapping occurrences of `sep`, scanned left to
right.  Always returns at least one element. -/
def pysplit (sep s : List Char) : List (List Char) :=
  pysplitFuel sep (s.length + 1) s

/-- Python substring containment `sep in s`. -/
def hasSub (sep s : List Char) : Bool := (splitFirst sep s).isSome

/-- Python `s.lower()` (ASCII case folding, which covers every string this
codebase lowercases). -/
def pylower (s : List Char) : List Char := s.map Char.toLower

/-- Python `s.strip()` (whitespace stripping at both ends). -/
def pystrip (s : List Char) : List Char :=
  ((s.dropWhile Char.isWhitespace).reverse.dropWhile Char.isWhitespace).reverse

/-- Decimal value of a digit string (callers have already checked that every
character is a digit). -/
def digitsToNat (s : List Char) : Nat :=
  s.foldl (fun a c => a * 10 + (c.toNat - 48)) 0

/-- Python `int(str)`: optional surrounding whitespace, optional sign, then a
non-empty run of decimal digits; `none` models the `ValueError` raised on any
other shape.  (Numeric-literal underscores, which no input of this codebase
uses, are not modelled.) -/
def pyint (s : List Char) : Option Int :=
  let t := pystrip s
  match t with
  | [] => none
  | '-' :: rest =>
    if rest ≠ [] ∧ rest.all Char.isDigit then some (-(digitsToNat rest : Int)) else none
  | '+' :: rest =>
    if rest ≠ [] ∧ rest.all Char.isDigit then some ((digitsToNat rest : Int)) else none
  | _ =>
    if t.all Char.isDigit then some ((digitsToNat t : Int)) else none

/-- Fuelled decimal rendering of a natural number. -/
def natDigitsAux : Nat → Nat → List Char
  | 0, _ => []
  | fuel + 1, n =>
    if n < 10 then [Char.ofNat (48 + n)]
    else natDigitsAux fuel (n / 10) ++ [Char.ofNat (48 + n % 10)]

/-- Python `str(n)` for an integer. -/
def pyStrInt (i : Int) : List Char :=
  if i < 0 then '-' :: natDigitsAux (i.natAbs + 1) i.natAbs
  else natDigitsAux (i.toNat + 1) i.toNat

/-- Python `s.zfill(2)`.  Every call site feeds a non-empty decimal rendering,
for which one-character inputs are single digits, so sign handling never
applies at width 2. -/
def zfill2 (s : List Char) : List Char :=
  if 2 ≤ s.length then s else '0' :: s

/-- Exceptions raised by the embedded Python code. -/
inductive PyError where
  | indexError
  | valueError
  | keyError
  | nameError
deriving DecidableEq, Repr

instance {ε α : Type} [DecidableEq ε] [DecidableEq α] : DecidableEq (Except ε α) := fun x y =>
  match x, y with
  | .ok a, .ok b =>
    if h : a = b then isTrue (by rw [h]) else isFalse (fun hh => h (Except.ok.inj hh))
  | .error a, .error b =>
    if h : a = b then isTrue (by rw [h]) else isFalse (fun hh => h (Except.error.inj hh))
  | .ok _, .error _ => isFalse (fun hh => Except.noConfusion hh)
  | .error _, .ok _ => isFalse (fun hh => Except.noConfusion hh)

/-- One optional `<digits><marker>` segment of `parse_runtime_duration`
(transxchange.py lines 327-334): if the marker occurs, convert the text
before its first occurrence with `int`, scale it, and continue with the text
between the first and second occurrences (`split[1]`). -/
def segStep (marker : Char) (factor : Int) (time : Int) (r : List Char) :
    Except PyError (Int × List Char) :=
  if r.contains marker then
    let split := pysplit [marker] r
    match pyint (split.headD []) with
    | none => .error .valueError
    | some v =>
      match split[1]? with
      | none => .error .indexError
      | some r1 => .ok (time + v * factor, r1)
  else .ok (time, r)

/-- Embedding of `parse_runtime_duration` (transxchange.py lines 317-338).
Note that the source's final branch multiplies the seconds segment by
`MINUTE_IN_SECONDS`; the embedding reproduces that multiplication. -/
def parse_runtime_duration (runtime : List Char) : Except PyError Int :=
  let HOUR_IN_SECONDS : Int := 60 * 60
  let MINUTE_IN_SECONDS : Int := 60
  match (pysplit (chars (r"PT")) runtime)[1]? with
  | none => .error .indexError
  | some r0 => do
    let (t1, r1) ← segStep 'H' HOUR_IN_SECONDS 0 r0
    let (t2, r2) ← segStep 'M' MINUTE_IN_SECONDS t1 r1
    if r2.contains 'S' then
      let split := pysplit ['S'] r2
      match pyint (split.headD []) with
      | none => .error .valueError
      | some v => .ok (t2 + v * MINUTE_IN_SECONDS)
    else .ok t2

/-- One row of the seven weekday operation flags built by `parse_day_range`
(calendar.py lines 85-97); each flag is the 0/1 integer the source writes. -/
structure DayRow where
  monday : Nat
  tuesday : Nat
  wednesday : Nat
  thursday : Nat
  friday : Nat
  saturday : Nat
  sunday : Nat
deriving DecidableEq, Repr

/-- The all-days-inactive row. -/
def zeroRow : DayRow := ⟨0, 0, 0, 0, 0, 0, 0⟩

/-- The `weekday_to_num` dictionary of calendar.py lines 39-47; `none` models
the `KeyError` raised on an unknown key. -/
def weekday_to_num (s : List Char) : Option Nat :=
  if s = chars (r"monday") then some 0
  else if s = chars (r"tuesday") then some 1
  else if s = chars (r"wednesday") then some 2
  else if s = chars (r"thursday") then some 3
  else if s = chars (r"friday") then some 4
  else if s = chars (r"saturday") then some 5
  else if s = chars (r"sunday") then some 6
  else none

/-- Build the flag row from the list of active day numbers (calendar.py
lines 85-97: each of the seven columns is 1 when its number is active). -/
def dayRowOf (active : List Nat) : DayRow :=
  let flag := fun n => if n ∈ active then 1 else 0
  ⟨flag 0, flag 1, flag 2, flag 3, flag 4, flag 5, flag 6⟩

/-- Embedding of `parse_day_range` (calendar.py lines 36-98).  The input is
the optional `weekdays` string; `Except` carries the `KeyError` of a failed
`weekday_to_num` lookup. -/
def parse_day_range (dayinfo : Option (List Char)) : Except PyError DayRow :=
  match dayinfo with
  | none => .ok zeroRow
  | some s =>
    if hasSub (chars (r"weekend")) (pylower (pystrip s)) then
      .ok (dayRowOf [5, 6])
    else if hasSub (chars (r"To")) s then
      let day_range := pysplit (chars (r"To")) s
      match weekday_to_num (pylower (day_range.headD [])),
            weekday_to_num (pylower (day_range[1]?.getD [])) with
      | some start_i, some end_i => .ok (dayRowOf (List.range' start_i (end_i + 1 - start_i)))
      | _, _ => .error .keyError
    else if hasSub ['|'] s then
      let days := pysplit ['|'] s
      match days.mapM (fun d => weekday_to_num (pylower d)) with
      | some nums => .ok (dayRowOf nums)
      | none => .error .keyError
    else
      match weekday_to_num (pylower s) with
      | some n => .ok (dayRowOf [n])
      | none => .error .keyError

/-- One row of the `gtfs_info` DataFrame produced by
`process_vehicle_journeys` (transxchange.py lines 198-241).  The constant
per-journey metadata columns that no modelled function ever reads back
(`agency_id`, `route_id`, `direction_id`, `line_name`, `travel_mode`,
`trip_headsign`, `vehicle_type`, `non_operative_days`) are omitted; the
fields kept are exactly the ones the stop-times filter, the service-id
assignment and the claims read. -/
structure OutRow where
  stop_id : List Char
  stop_sequence : Nat
  timepoint : Nat
  arrival_time : List Char
  departure_time : List Char
  route_link_ref : List Char
  trip_id : List Char
  vehicle_journey_id : List Char
  service_ref : List Char
  start_date : List Char
  end_date : List Char
  weekdays : Option (List Char)
  service_id : Option (List Char) := none
deriving DecidableEq, Repr

/-- Worker for pandas `drop_duplicates` (keep the first occurrence); `seen`
accumulates the values already kept. -/
def pydedupAux {α : Type} [DecidableEq α] : List α → List α → List α
  | _, [] => []
  | seen, a :: l =>
    if a ∈ seen then pydedupAux seen l else a :: pydedupAux (a :: seen) l

/-- pandas `DataFrame.drop_duplicates()`: keep the first occurrence of every
row value. -/
def pydedup {α : Type} [DecidableEq α] (l : List α) : List α := pydedupAux [] l

/-- Worker for `drop_duplicates(subset=['vehicle_journey_id'])`
(stop_times.py line 56): keep the first row for each journey id. -/
def dedupByVjAux : List (List Char) → List OutRow → List OutRow
  | _, [] => []
  | seen, r :: rest =>
    if r.vehicle_journey_id ∈ seen then dedupByVjAux seen rest
    else r :: dedupByVjAux (r.vehicle_journey_id :: seen) rest

/-- The `calendar_info` table of `generate_service_id` (stop_times.py
line 56): the input with duplicate journey ids dropped, first kept. -/
def calendar_info (rows : List OutRow) : List OutRow := dedupByVjAux [] rows

/-- The identifier string `f"{service_ref}_{start_d}_{end_d}_{daygroup}"`
built at stop_times.py line 86. -/
def mkServiceId (g : OutRow) (w : List Char) : List Char :=
  g.service_ref ++ ('_' :: (g.start_date ++ ('_' :: (g.end_date ++ ('_' :: w)))))

/-- The calendar identifier `generate_service_id` (stop_times.py lines 50-90)
assigns to a row: the row's journey id selects its `calendar_info` row, whose
`weekdays` value keys the `groupby('weekdays')` group; the group's identifier
is built from the first `calendar_info` row carrying that key (the
`unique()[0]` of lines 80-83).  Rows whose `calendar_info` weekday value is
null are skipped by the pandas groupby and keep the `None` initialised at
line 53. -/
def service_id_of (rows : List OutRow) (r : OutRow) : Option (List Char) :=
  match (calendar_info rows).find?
      (fun c => c.vehicle_journey_id == r.vehicle_journey_id) with
  | none => none
  | some c =>
    match c.weekdays with
    | none => none
    | some w =>
      match (calendar_info rows).find? (fun g => g.weekdays == some w) with
      | none => none
      | some g => some (mkServiceId g w)

/-- Embedding of `generate_service_id` (stop_times.py lines 50-90): write the
group identifier into every row of the table.  (The branch for a table
lacking the `weekdays` column, lines 59-69, cannot arise for tables built by
`process_vehicle_journeys` and is not modelled.) -/
def generate_service_id (rows : List OutRow) : List OutRow :=
  rows.map (fun r => { r with service_id := service_id_of rows r })

/-- The six columns `get_stop_times` selects (stop_times.py line 17), with
the integer coercions of lines 32-34 applied. -/
structure StopTimesRow where
  trip_id : List Char
  arrival_time : List Char
  departure_time : List Char
  stop_id : List Char
  stop_sequence : Int
  timepoint : Int
deriving DecidableEq, Repr

/-- Column selection of stop_times.py line 26 plus the `astype(int)` of
lines 32-34. -/
def toStopTimesRow (r : OutRow) : StopTimesRow :=
  ⟨r.trip_id, r.arrival_time, r.departure_time, r.stop_id,
   (r.stop_sequence : Int), (r.timepoint : Int)⟩

/-- The `stop_times` table after the column selection of stop_times.py
line 26 and the `drop_duplicates()` of line 29 (first occurrence kept). -/
def stop_times_dedup (gtfs_info : List OutRow) : List StopTimesRow :=
  pydedup (gtfs_info.map toStopTimesRow)

/-- Embedding of `get_stop_times` (stop_times.py lines 15-47): select the six
columns, drop duplicate rows keeping the first, then keep only the rows of
trips with more than one remaining record (lines 36-45).  (pandas iterates
the trip groups in sorted key order; this embedding keeps the input order,
which leaves the set of surviving rows unchanged.) -/
def get_stop_times (gtfs_info : List OutRow) : List StopTimesRow :=
  (stop_times_dedup gtfs_info).filter
    (fun r => 1 <
      ((stop_times_dedup gtfs_info).filter (fun x => x.trip_id == r.trip_id)).length)

/-- The seven weekdays, used to quantify over day-range inputs. -/
inductive Day where
  | monday
  | tuesday
  | wednesday
  | thursday
  | friday
  | saturday
  | sunday
deriving DecidableEq, Fintype, Repr

/-- Calendar position of a day (Monday = 0). -/
def dayPos : Day → Nat
  | .monday => 0
  | .tuesday => 1
  | .wednesday => 2
  | .thursday => 3
  | .friday => 4
  | .saturday => 5
  | .sunday => 6

/-- Canonical lowercase name of a day. -/
def dayName : Day → List Char
  | .monday => chars (r"monday")
  | .tuesday => chars (r"tuesday")
  | .wednesday => chars (r"wednesday")
  | .thursday => chars (r"thursday")
  | .friday => chars (r"friday")
  | .saturday => chars (r"saturday")
  | .sunday => chars (r"sunday")

/-! ### Timetable materializer (transxchange.py)

Clock values are seconds relative to midnight of the reference day
(`datetime.now().date()` at line 109); a Python `datetime` is fully
determined by that signed second count. -/

/-- `datetime.hour` of a clock value. -/
def pyHour (t : Int) : Int := (t.fdiv 3600).emod 24

/-- `datetime.minute` of a clock value. -/
def pyMinute (t : Int) : Int := (t.fdiv 60).emod 60

/-- `datetime.second` of a clock value. -/
def pySecond (t : Int) : Int := t.emod 60

/-- `strftime("%M:%S")` of a clock value. -/
def mmss (t : Int) : List Char :=
  zfill2 (pyStrInt (pyMinute t)) ++ (':' :: zfill2 (pyStrInt (pySecond t)))

/-- Hour string and `%M:%S` glued as in transxchange.py lines 25-28 and
192-193. -/
def clockString (hourVal : Int) (t : Int) : List Char :=
  zfill2 (pyStrInt hourVal) ++ (':' :: mmss t)

/-- The last second of the reference day, `datetime.combine(current_date,
time(23, 59, 59))` of transxchange.py line 47, as a clock value. -/
def lastSecondOfDay : Int := 86399

/-- `int(((dt - last_second_of_day) / 60 / 60).seconds)` for an
integer-second difference `delta`: dividing a `timedelta` twice by 60 scales
it to `delta / 3600` seconds (the two roundings to whole microseconds cannot
move the value across a second boundary for integer `delta`), and `.seconds`
of the normalised result is the floor of that value modulo 86400. -/
def tdSeconds (delta : Int) : Int := (delta.fdiv 3600).emod 86400

/-- Embedding of `get_midnight_formatted_times` (transxchange.py
lines 38-55).  The `current_date` parameter is the reference day and is
implicit in the choice of clock origin. -/
def get_midnight_formatted_times (arrival_hour departure_hour hour : Int)
    (current_dt departure_dt : Int) : Int × Int :=
  if arrival_hour < hour then
    let arrival_over_midnight_surplus := tdSeconds (current_dt - lastSecondOfDay) + 1
    let departure_over_midnight_surplus := tdSeconds (departure_dt - lastSecondOfDay) + 1
    (23 + arrival_over_midnight_surplus, 23 + departure_over_midnight_surplus)
  else (arrival_hour, departure_hour)

/-- One `JourneyPatternTimingLink` element (fields read at transxchange.py
lines 13, 174, 195-196). -/
structure TimingLink where
  fromStop : List Char
  toStop : List Char
  runTime : List Char
  routeLinkRef : List Char
deriving DecidableEq, Repr

/-- One `JourneyPatternSection` element: its `id` attribute and its ordered
timing links. -/
structure JPSection where
  id : List Char
  links : List TimingLink
deriving DecidableEq, Repr

/-- One `VehicleJourney` element (fields read at transxchange.py
lines 120-134); `weekdays` and `nonOperativeDays` are the already-parsed
results of `get_weekday_info` and `get_calendar_dates_exceptions`, which
return `None` when the journey has no `OperatingProfile`. -/
structure VehicleJourney where
  serviceRef : List Char
  journeyPatternRef : List Char
  vehicleJourneyCode : List Char
  departureTime : List Char
  weekdays : Option (List Char)
  nonOperativeDays : Option (List Char)
deriving DecidableEq, Repr

/-- One row of the `service_jp_info` DataFrame built by
`get_service_journey_pattern_info`; of its columns the materializer reads the
pattern id, the section reference, and the nine metadata columns of
line 145-146, of which only the two dates flow into modelled output. -/
structure JPInfoRow where
  journey_pattern_id : List Char
  jp_section_reference : List Char
  start_date : List Char
  end_date : List Char
deriving DecidableEq, Repr

/-- Per-journey constants copied into every emitted row (transxchange.py
lines 198-219 and 224-239). -/
structure JMeta where
  vehicle_journey_id : List Char
  service_ref : List Char
  start_date : List Char
  end_date : List Char
  weekdays : Option (List Char)
deriving DecidableEq, Repr

/-- Python `str(weekdays)` as used in the f-string of transxchange.py
line 165: `None` renders as the text `None`. -/
def pyOptStr (w : Option (List Char)) : List Char :=
  match w with
  | none => chars (r"None")
  | some s => s

/-- The trip identifier
`f"{section_id}_{weekdays}_{str(hour).zfill(2)}{str(minute).zfill(2)}"` of
transxchange.py line 165. -/
def mkTripId (sectionId : List Char) (weekdays : Option (List Char))
    (hour minute : Int) : List Char :=
  sectionId ++ ('_' :: (pyOptStr weekdays ++
    ('_' :: (zfill2 (pyStrInt hour) ++ zfill2 (pyStrInt minute)))))

/-- The loop-body row of transxchange.py lines 186-219 for one timing link:
midnight-formatted hour values, clock strings, and the `From` stop. -/
def mkLoopRow (meta : JMeta) (trip_id : List Char) (link : TimingLink)
    (stop_num : Nat) (timepoint : Nat) (hour : Int)
    (current_dt departure_dt : Int) : OutRow :=
  let p := get_midnight_formatted_times (pyHour current_dt) (pyHour departure_dt)
      hour current_dt departure_dt
  { stop_id := link.fromStop
    stop_sequence := stop_num
    timepoint := timepoint
    arrival_time := clockString p.1 current_dt
    departure_time := clockString p.2 departure_dt
    route_link_ref := link.routeLinkRef
    trip_id := trip_id
    vehicle_journey_id := meta.vehicle_journey_id
    service_ref := meta.service_ref
    start_date := meta.start_date
    end_date := meta.end_date
    weekdays := meta.weekdays }

/-- Embedding of `get_last_stop_time_info` (transxchange.py lines 9-35):
advance the clock once more by `duration`, format, and emit the `To` stop of
the given link with the given (not incremented) sequence number.  Returns the
four dict entries of line 30-35. -/
def get_last_stop_time_info (link : TimingLink) (hour : Int)
    (current_dt : Int) (duration : Int) (stop_num : Nat)
    (boarding_time : Int) : List Char × Nat × List Char × List Char :=
  let stop_id := link.toStop
  let current_dt2 := current_dt + duration
  let departure_dt := current_dt2 + boarding_time
  let p := get_midnight_formatted_times (pyHour current_dt2) (pyHour departure_dt)
      hour current_dt2 departure_dt
  (stop_id, stop_num, clockString p.1 current_dt2, clockString p.2 departure_dt)

/-- The timing-link loop of transxchange.py lines 173-221.  State threaded
exactly as in the source: `current_dt` (`None` before the first link of the
whole trip), the running `stop_num`, and — because Python keeps loop
variables alive after the loop — the last `(link, duration)` pair, which
lines 224-226 read back.  The first link initialises the clock to
`datetime.combine(current_date, time(hour, minute))` (the parsed second is
dropped by the source); `time(...)` validates its arguments, raising
`ValueError` outside 0-23/0-59. -/
def processLinks (meta : JMeta) (trip_id : List Char)
    (hour minute boarding_time : Int) :
    Option Int → Nat → List TimingLink →
    Except PyError (List OutRow × Option Int × Nat × Option (TimingLink × Int))
  | current_dt, stop_num, [] => .ok ([], current_dt, stop_num, none)
  | current_dt, stop_num, link :: rest => do
    let duration ← parse_runtime_duration link.runTime
    let (cdt, departure_dt, timepoint) ←
      match current_dt with
      | none =>
        if 0 ≤ hour ∧ hour < 24 ∧ 0 ≤ minute ∧ minute < 60 then
          let c := hour * 3600 + minute * 60
          (.ok (c, c, 1) : Except PyError (Int × Int × Nat))
        else .error .valueError
      | some c => .ok (c + duration, c + duration + boarding_time, 0)
    let row := mkLoopRow meta trip_id link stop_num timepoint hour cdt departure_dt
    let (rows, cdt2, stop_num2, last2) ←
      processLinks meta trip_id hour minute boarding_time (some cdt) (stop_num + 1) rest
    .ok (row :: rows, cdt2, stop_num2, some (last2.getD (link, duration)))

/-- The section loop of transxchange.py lines 163-241.  `section_times` is
reset for every matching section (line 171) and only its final value is
appended to the output (line 244); a `none` value models the name being still
unassigned.  Sections whose id is not among the pattern's section references
are skipped (line 167-168).  After the link loop the stale `link`/`duration`
pair feeds `get_last_stop_time_info`; its row keeps the current `stop_num`
(never incremented) and gets `timepoint = 0` (line 225).  An empty link list
would leave `link` unbound at line 224 and is modelled as the resulting
`NameError`. -/
def processSections (meta : JMeta) (hour minute boarding_time : Int)
    (jp_section_references : List (List Char)) :
    Option Int → Nat → Option (List OutRow) → List JPSection →
    Except PyError (Option Int × Nat × Option (List OutRow))
  | current_dt, stop_num, section_times, [] => .ok (current_dt, stop_num, section_times)
  | current_dt, stop_num, section_times, sec :: rest =>
    let trip_id := mkTripId sec.id meta.weekdays hour minute
    if sec.id ∈ jp_section_references then
      match sec.links with
      | [] => .error .nameError
      | _ :: _ => do
        let (rows, cdt2, stop_num2, last2) ←
          processLinks meta trip_id hour minute boarding_time current_dt stop_num sec.links
        match cdt2, last2 with
        | some c, some (lastLink, lastDuration) =>
          let info := get_last_stop_time_info lastLink hour c lastDuration stop_num2 boarding_time
          let lastRow : OutRow :=
            { stop_id := info.1
              stop_sequence := info.2.1
              timepoint := 0
              arrival_time := info.2.2.1
              departure_time := info.2.2.2
              route_link_ref := lastLink.routeLinkRef
              trip_id := trip_id
              vehicle_journey_id := meta.vehicle_journey_id
              service_ref := meta.service_ref
              start_date := meta.start_date
              end_date := meta.end_date
              weekdays := meta.weekdays }
          processSections meta hour minute boarding_time jp_section_references
            cdt2 stop_num2 (some (rows ++ [lastRow])) rest
        | _, _ => .error .nameError
    else
      processSections meta hour minute boarding_time jp_section_references
        current_dt stop_num section_times rest

/-- `departure_time.split(':')` with three-way unpacking and the three `int`
conversions of transxchange.py lines 156-157. -/
def parseHMS (s : List Char) : Except PyError (Int × Int × Int) :=
  match pysplit [':'] s with
  | [h, m, sec] =>
    match pyint h, pyint m, pyint sec with
    | some a, some b, some c => .ok (a, b, c)
    | _, _, _ => .error .valueError
  | _ => .error .valueError

/-- The body of the journey loop of `process_vehicle_journeys`
(transxchange.py lines 115-244) for one `VehicleJourney`.  `leak` is the
value the Python variable `section_times` still holds from an earlier
iteration: a journey none of whose sections match appends that stale frame at
line 244, and if the name was never assigned the append raises `NameError`.
An empty pattern selection makes `service_journey_patterns[cols].values[0]`
at line 148 raise `IndexError` before any departure-time parsing. -/
def processJourney (service_jp_info : List JPInfoRow) (sections : List JPSection)
    (service_operative_days : Option (List Char)) (boarding_time : Int)
    (leak : Option (List OutRow)) (journey : VehicleJourney) :
    Except PyError (List OutRow) := do
  let weekdays :=
    match journey.weekdays with
    | none => service_operative_days
    | some w => some w
  let sel := service_jp_info.filter
    (fun r => r.journey_pattern_id == journey.journeyPatternRef)
  let jp_section_references := sel.map (·.jp_section_reference)
  match sel with
  | [] => .error .indexError
  | p :: _ => do
    let (hour, minute, _second) ← parseHMS journey.departureTime
    let meta : JMeta :=
      { vehicle_journey_id := journey.vehicleJourneyCode
        service_ref := journey.serviceRef
        start_date := p.start_date
        end_date := p.end_date
        weekdays := weekdays }
    let (_, _, section_times) ←
      processSections meta hour minute boarding_time jp_section_references
        none 1 leak sections
    match section_times with
    | none => .error .nameError
    | some st => .ok st

/-- The journey loop of transxchange.py lines 115-244, threading the leaked
`section_times` variable between iterations and concatenating each journey's
appended frame. -/
def processJourneys (service_jp_info : List JPInfoRow) (sections : List JPSection)
    (service_operative_days : Option (List Char)) (boarding_time : Int) :
    Option (List OutRow) → List VehicleJourney → Except PyError (List OutRow)
  | _, [] => .ok []
  | leak, j :: rest => do
    let st ← processJourney service_jp_info sections service_operative_days
        boarding_time leak j
    let tail ← processJourneys service_jp_info sections service_operative_days
        boarding_time (some st) rest
    .ok (st ++ tail)

/-- Embedding of `process_vehicle_journeys` (transxchange.py lines 99-249):
materialize every vehicle journey with `boarding_time = 0` (line 112), then
run `generate_service_id` over the table (line 247).
`service_non_operative_days` only feeds the omitted `non_operative_days`
column and is therefore not a parameter here. -/
def process_vehicle_journeys (vjourneys : List VehicleJourney)
    (service_jp_info : List JPInfoRow) (sections : List JPSection)
    (service_operative_days : Option (List Char)) :
    Except PyError (List OutRow) :=
  (processJourneys service_jp_info sections service_operative_days 0
    none vjourneys).map generate_service_id


/-! ### Concrete fixtures used by the claim theorems -/

/-- Shorthand for a timing link fixture. -/
def mkLink (a b rt rl : String) : TimingLink :=
  ⟨chars a, chars b, chars rt, chars rl⟩

/-- A vehicle journey of service `SRV1` over pattern `JP1` departing at the
given time, operating on Mondays. -/
def journeyAt (dep : String) : VehicleJourney :=
  ⟨chars (r"SRV1"), chars (r"JP1"), chars (r"VJ1"), chars dep,
   some (chars (r"monday")), none⟩

/-- A `service_jp_info` row binding pattern `JP1` to the given section. -/
def jpRow (secId : String) : JPInfoRow :=
  ⟨chars (r"JP1"), chars secId, chars (r"20240101"), chars (r"20991231")⟩

/-- Two chained links with distinct durations: one minute then two minutes. -/
def sectionTwoLinks : JPSection :=
  ⟨chars (r"S1"),
   [mkLink (r"A") (r"B") (r"PT1M") (r"RL1"),
    mkLink (r"B") (r"C") (r"PT2M") (r"RL2")]⟩

/-- A single 55-minute link, the spec's midnight-crossing example. -/
def sectionMidnight : JPSection :=
  ⟨chars (r"S1"), [mkLink (r"A") (r"B") (r"PT55M") (r"RL1")]⟩

/-- First of two one-link sections of the same journey pattern. -/
def sectionS1 : JPSection :=
  ⟨chars (r"S1"), [mkLink (r"A") (r"B") (r"PT1M") (r"R1")]⟩

/-- Second of two one-link sections of the same journey pattern. -/
def sectionS2 : JPSection :=
  ⟨chars (r"S2"), [mkLink (r"B") (r"C") (r"PT1M") (r"R2")]⟩

/-- A vehicle journey referencing the pattern id `JPX`, absent from every
`service_jp_info` fixture. -/
def journeyBadRef : VehicleJourney :=
  ⟨chars (r"SRV1"), chars (r"JPX"), chars (r"VJ9"), chars (r"10:00:00"),
   some (chars (r"monday")), none⟩

/-- A materialized-trip row fixture for the service-id claims. -/
def sidRow (vj ref wd : String) : OutRow :=
  { stop_id := chars (r"A")
    stop_sequence := 1
    timepoint := 1
    arrival_time := chars (r"10:00:00")
    departure_time := chars (r"10:00:00")
    route_link_ref := chars (r"RL1")
    trip_id := chars (r"S1_monday_1000")
    vehicle_journey_id := chars vj
    service_ref := chars ref
    start_date := chars (r"20240101")
    end_date := chars (r"20991231")
    weekdays := some (chars wd) }

/-- Trip rows for the stop-times filter claim: two records of trip `T1`,
one record of trip `T2`. -/
def stRow (trip stop : String) (seqn : Nat) : OutRow :=
  { stop_id := chars stop
    stop_sequence := seqn
    timepoint := 0
    arrival_time := chars (r"10:00:00")
    departure_time := chars (r"10:00:00")
    route_link_ref := chars (r"RL1")
    trip_id := chars trip
    vehicle_journey_id := chars (r"VJ1")
    service_ref := chars (r"SRV1")
    start_date := chars (r"20240101")
    end_date := chars (r"20991231")
    weekdays := some (chars (r"monday")) }

/-- The records of trip `t` among the six-column projections of the input
table: the unit `get_stop_times` counts when deciding whether a trip
survives. -/
def tripRecords (gtfs_info : List OutRow) (t : List Char) : List StopTimesRow :=
  (gtfs_info.map toStopTimesRow).filter (fun x => x.trip_id == t)

end TransX

/-! ### Helper lemmas -/

namespace TransX

/-- For a non-negative integer-second difference below one day of hours, the
`timedelta` seconds extraction is plain floor division by 3600. -/
theorem tdSeconds_of_bounds {x : Int} (h0 : 0 ≤ x) (h1 : x < 86400 * 3600) :
    tdSeconds x = x.fdiv 3600 := by
  unfold tdSeconds
  rw [Int.fdiv_eq_ediv _ (by norm_num)]
  show x / 3600 % 86400 = x / 3600
  omega

end TransX

/-! ### Claim theorems -/

namespace TransX

/-- Claim C2 (code_bug evaluation): `parse_runtime_duration` handles hour and
minute segments exactly (`PT2H5M` gives 7500 seconds), but a 30-second code
yields 1800 seconds because the source multiplies the seconds segment by
`MINUTE_IN_SECONDS`; the claim requires a code encoding N seconds to
contribute exactly N. -/
theorem claim_c2_seconds_segment_scaled :
    parse_runtime_duration (chars (r"PT2H5M")) = .ok 7500 ∧
    parse_runtime_duration (chars (r"PT30S")) = .ok 1800 :=
  ⟨rfl, rfl⟩

/-- Claim C6: semantically identical weekly-pattern phrasings normalize to
the identical flag row: the pipe list `monday|tuesday` and the range form
`mondayTotuesday` both give exactly the Monday+Tuesday row, and a `weekend`
designation gives the same row as the explicit `saturday|sunday` list. -/
theorem claim_c6_day_range_normalization :
    parse_day_range (some (chars (r"monday|tuesday"))) =
        parse_day_range (some (chars (r"mondayTotuesday"))) ∧
    parse_day_range (some (chars (r"monday|tuesday"))) = .ok ⟨1, 1, 0, 0, 0, 0, 0⟩ ∧
    parse_day_range (some (chars (r"Weekend"))) =
        parse_day_range (some (chars (r"saturday|sunday"))) :=
  ⟨rfl, rfl, rfl⟩

/-- Claim C10: every reversed day range (start day strictly after end day in
calendar order) parses to the all-days-inactive row: the `range(start, end+1)`
of calendar.py line 78 is empty, no error is raised, and no wrap-around
expansion happens. -/
theorem claim_c10_reversed_range_inactive :
    ∀ a b : Day, dayPos b < dayPos a →
      parse_day_range (some (dayName a ++ chars (r"To") ++ dayName b)) = .ok zeroRow := by
  decide

/-- Witness for C10 at the concrete reversed range `fridayTomonday`. -/
theorem claim_c10_witness :
    dayPos Day.monday < dayPos Day.friday ∧
    parse_day_range (some (dayName Day.friday ++ chars (r"To") ++ dayName Day.monday)) =
      .ok zeroRow :=
  ⟨by decide, claim_c10_reversed_range_inactive Day.friday Day.monday (by decide)⟩

/-- Claim C1 (code_bug evaluation): for a journey departing 10:00:00 over one
section with links of 1 minute then 2 minutes, the first stop is emitted at
the departure time with `timepoint = 1`, but the arrival at the first link's
destination `B` is `10:02:00` (the second link's runtime applied before its
origin) rather than the claimed departure-plus-sum-of-links-1..1 `10:01:00`,
and the final stop `C` is `10:04:00` (second link's runtime applied twice)
rather than the claimed `10:03:00`. -/
theorem claim_c1_link_duration_offset :
    (process_vehicle_journeys [journeyAt (r"10:00:00")] [jpRow (r"S1")]
        [sectionTwoLinks] none).map
      (List.map (fun r => (r.stop_id, r.stop_sequence, r.timepoint, r.arrival_time))) =
    .ok [(chars (r"A"), 1, 1, chars (r"10:00:00")),
         (chars (r"B"), 2, 0, chars (r"10:02:00")),
         (chars (r"C"), 3, 0, chars (r"10:04:00"))] :=
  rfl

/-- Claim C4 (code_bug evaluation): for a journey whose pattern references
the two sections `S1` and `S2` (one one-minute link each), the emitted table
contains only the rows of the last matched section, its stop sequence is
`[2, 3]` — neither starting at 1 nor containing the sequence number 1 — and
no row carries `timepoint = 1`, because `section_times` is re-initialised per
section (line 171) and appended to the output only after the section loop
(line 244). -/
theorem claim_c4_multi_section_rows_dropped :
    (process_vehicle_journeys [journeyAt (r"10:00:00")]
        [jpRow (r"S1"), jpRow (r"S2")] [sectionS1, sectionS2] none).map
      (List.map (fun r => (r.stop_id, r.stop_sequence, r.timepoint, r.arrival_time))) =
    .ok [(chars (r"B"), 2, 0, chars (r"10:01:00")),
         (chars (r"C"), 3, 0, chars (r"10:02:00"))] :=
  rfl


/-- Claim C3: midnight rollover.  Concretely, a trip departing `23:30:00`
with a single 55-minute link yields the arrival string `24:25:00` (hour 24,
not 0).  Generally, whenever the arrival hour-of-day wraps below the
journey's initial hour, `get_midnight_formatted_times` re-expresses both hour
components as `24 +` the whole hours elapsed past the reference day's last
second (well-defined for clock values within the day after the reference
day). -/
theorem claim_c3_midnight_hour_reexpressed :
    ((process_vehicle_journeys [journeyAt (r"23:30:00")] [jpRow (r"S1")]
          [sectionMidnight] none).map
        (List.map (fun r => (r.stop_id, r.stop_sequence, r.timepoint,
          r.arrival_time, r.departure_time))) =
      .ok [(chars (r"A"), 1, 1, chars (r"23:30:00"), chars (r"23:30:00")),
           (chars (r"B"), 2, 0, chars (r"24:25:00"), chars (r"24:25:00"))]) ∧
    (∀ arrival_hour departure_hour hour current_dt departure_dt : Int,
      arrival_hour < hour →
      0 ≤ current_dt - lastSecondOfDay →
      current_dt - lastSecondOfDay < 86400 * 3600 →
      0 ≤ departure_dt - lastSecondOfDay →
      departure_dt - lastSecondOfDay < 86400 * 3600 →
      get_midnight_formatted_times arrival_hour departure_hour hour
          current_dt departure_dt =
        (24 + (current_dt - lastSecondOfDay).fdiv 3600,
         24 + (departure_dt - lastSecondOfDay).fdiv 3600)) := by
  constructor
  · rfl
  · intro arrival_hour departure_hour hour current_dt departure_dt hlt ha0 ha1 hd0 hd1
    unfold get_midnight_formatted_times
    rw [if_pos hlt, tdSeconds_of_bounds ha0 ha1, tdSeconds_of_bounds hd0 hd1]
    simp only [Prod.mk.injEq]
    constructor <;> ring

/-- Witness for the general conjunct of C3: an arrival clock of `00:25:00`
on the day after the reference day, against an initial hour of 23, is
re-expressed with hour `24`. -/
theorem claim_c3_witness :
    (0 : Int) < 23 ∧
    get_midnight_formatted_times 0 0 23 87900 87900 =
      (24 + ((87900 : Int) - lastSecondOfDay).fdiv 3600,
       24 + ((87900 : Int) - lastSecondOfDay).fdiv 3600) :=
  ⟨by norm_num,
   claim_c3_midnight_hour_reexpressed.2 0 0 23 87900 87900
     (by norm_num) (by decide) (by decide) (by decide) (by decide)⟩

/-- Counterexample for claim C8: the code-string `PTXYZ` cannot be a valid
duration code (its content after the `PT` marker contains no hour, minute or
second marker at all), yet `parse_runtime_duration` returns the default 0
normally instead of failing with an error. -/
theorem claim_c8_counterexample :
    parse_runtime_duration (chars (r"PTXYZ")) = .ok 0 :=
  rfl

/-- Claim C8 as amended: a code in which the `PT` marker cannot be located
fails (with an uncaught `IndexError` — the code has no designated
`MalformedDurationError`), and a non-integer segment before a located marker
fails with `ValueError`; but a code containing `PT` and no `H`/`M`/`S`
marker returns 0 normally rather than failing. -/
theorem claim_c8_malformed_handling :
    (∀ runtime : List Char, hasSub (chars (r"PT")) runtime = false →
        parse_runtime_duration runtime = .error .indexError) ∧
    parse_runtime_duration (chars (r"PTXYZ")) = .ok 0 ∧
    parse_runtime_duration (chars (r"PTxH")) = .error .valueError := by
  refine ⟨?_, rfl, rfl⟩
  intro runtime h
  have hn : splitFirst (chars (r"PT")) runtime = none := by
    cases hq : splitFirst (chars (r"PT")) runtime
    · rfl
    · simp [hasSub, hq] at h
  simp [parse_runtime_duration, pysplit, pysplitFuel, hn]

/-- Witness for the universal conjunct of C8 at the marker-free code `X5M`. -/
theorem claim_c8_witness :
    hasSub (chars (r"PT")) (chars (r"X5M")) = false ∧
    parse_runtime_duration (chars (r"X5M")) = .error .indexError :=
  ⟨by decide, claim_c8_malformed_handling.1 (chars (r"X5M")) (by decide)⟩

/-- Counterexample for claim C9: a run containing a vehicle journey whose
pattern reference `JPX` is absent from the index, followed by a perfectly
resolvable journey, aborts with an uncaught `IndexError` — it does not skip
the bad journey with a warning and it produces no output for the remaining
journeys. -/
theorem claim_c9_counterexample :
    process_vehicle_journeys [journeyBadRef, journeyAt (r"10:00:00")]
        [jpRow (r"S1")] [sectionMidnight] none =
      .error .indexError :=
  rfl


/-! ### Deduplication lemmas for the stop-times filter -/

/-- Membership in the keep-first deduplication worker. -/
theorem mem_pydedupAux {α : Type} [DecidableEq α] (a : α) (l : List α) :
    ∀ seen : List α, a ∈ pydedupAux seen l ↔ a ∈ l ∧ a ∉ seen := by
  induction l with
  | nil => intro seen; simp [pydedupAux]
  | cons b t ih =>
    intro seen
    by_cases hb : b ∈ seen
    · rw [pydedupAux, if_pos hb, ih seen]
      by_cases hab : a = b
      · subst hab; simp [hb]
      · simp [List.mem_cons, hab]
    · rw [pydedupAux, if_neg hb]
      by_cases hab : a = b
      · subst hab; simp [hb]
      · simp [List.mem_cons, hab, ih (b :: seen)]

/-- The deduplication worker only consults the accumulator through membership
of the list's elements. -/
theorem pydedupAux_congr {α : Type} [DecidableEq α] (l : List α) :
    ∀ s1 s2 : List α, (∀ x ∈ l, x ∈ s1 ↔ x ∈ s2) →
      pydedupAux s1 l = pydedupAux s2 l := by
  induction l with
  | nil => intro s1 s2 _; rfl
  | cons b t ih =>
    intro s1 s2 h
    have hb := h b (List.mem_cons_self b t)
    by_cases hb1 : b ∈ s1
    · rw [pydedupAux, pydedupAux, if_pos hb1, if_pos (hb.mp hb1)]
      exact ih s1 s2 (fun x hx => h x (List.mem_cons_of_mem b hx))
    · have hb2 : b ∉ s2 := fun hh => hb1 (hb.mpr hh)
      rw [pydedupAux, pydedupAux, if_neg hb1, if_neg hb2]
      congr 1
      refine ih (b :: s1) (b :: s2) (fun x hx => ?_)
      simp only [List.mem_cons]
      exact or_congr Iff.rfl (h x (List.mem_cons_of_mem b hx))

/-- Filtering commutes with keep-first deduplication. -/
theorem filter_pydedupAux {α : Type} [DecidableEq α] (p : α → Bool) (l : List α) :
    ∀ seen : List α, (pydedupAux seen l).filter p = pydedupAux seen (l.filter p) := by
  induction l with
  | nil => intro seen; rfl
  | cons b t ih =>
    intro seen
    by_cases hb : b ∈ seen
    · rw [pydedupAux, if_pos hb, ih seen]
      by_cases hp : p b
      · rw [List.filter_cons, if_pos hp, pydedupAux, if_pos hb]
      · rw [List.filter_cons, if_neg hp]
    · rw [pydedupAux, if_neg hb]
      by_cases hp : p b
      · rw [List.filter_cons, if_pos hp, List.filter_cons, if_pos hp,
          pydedupAux, if_neg hb, ih (b :: seen)]
      · rw [List.filter_cons, if_neg hp, List.filter_cons, if_neg hp, ih (b :: seen)]
        refine pydedupAux_congr _ _ _ (fun x hx => ?_)
        have hpx : p x = true := (List.mem_filter.mp hx).2
        have hxb : x ≠ b := fun he => by rw [he] at hpx; exact hp hpx
        simp [List.mem_cons, hxb]

/-- On a duplicate-free list the deduplication worker is a plain filter
against the accumulator. -/
theorem pydedupAux_of_nodup {α : Type} [DecidableEq α] :
    ∀ (l seen : List α), l.Nodup →
      pydedupAux seen l = l.filter (fun x => decide (x ∉ seen))
  | [], _, _ => rfl
  | b :: t, seen, h => by
    obtain ⟨hbt, ht⟩ := List.nodup_cons.mp h
    by_cases hb : b ∈ seen
    · rw [pydedupAux, if_pos hb, pydedupAux_of_nodup t seen ht, List.filter_cons]
      simp [hb]
    · rw [pydedupAux, if_neg hb, pydedupAux_of_nodup t (b :: seen) ht, List.filter_cons]
      rw [if_pos (by simp [hb])]
      congr 1
      refine List.filter_congr (fun x hx => ?_)
      have hxb : x ≠ b := fun he => hbt (he ▸ hx)
      simp [List.mem_cons, hxb]

/-- Keep-first deduplication of a duplicate-free list is the identity. -/
theorem pydedup_eq_self_of_nodup {α : Type} [DecidableEq α] {l : List α}
    (h : l.Nodup) : pydedup l = l := by
  rw [pydedup, pydedupAux_of_nodup l [] h]
  simp

/-- Keep-first deduplication preserves membership. -/
theorem mem_pydedup {α : Type} [DecidableEq α] {a : α} {l : List α} :
    a ∈ pydedup l ↔ a ∈ l := by
  rw [pydedup, mem_pydedupAux]
  simp

/-- Filtering commutes with keep-first deduplication (top level). -/
theorem filter_pydedup {α : Type} [DecidableEq α] (p : α → Bool) (l : List α) :
    (pydedup l).filter p = pydedup (l.filter p) :=
  filter_pydedupAux p l []


/-- Claim C7: `get_stop_times` retains exactly the trips with at least two
stop-time records and drops the rest, provided the trip's records are
pairwise distinct (which the materializer's strictly increasing
`stop_sequence` guarantees): some record of trip `t` survives into the output
iff the input holds at least two records of `t`.  In particular a one-record
trip is absent and a two-record trip is present. -/
theorem claim_c7_short_trips_dropped :
    ∀ (gtfs_info : List OutRow) (t : List Char),
      (tripRecords gtfs_info t).Nodup →
      ((∃ r ∈ get_stop_times gtfs_info, r.trip_id = t) ↔
        2 ≤ (tripRecords gtfs_info t).length) := by
  intro g t hnd
  have hfilter : (stop_times_dedup g).filter (fun x => x.trip_id == t) =
      tripRecords g t := by
    rw [stop_times_dedup, filter_pydedup]
    exact pydedup_eq_self_of_nodup hnd
  constructor
  · rintro ⟨r, hr, hrt⟩
    rw [get_stop_times, List.mem_filter] at hr
    obtain ⟨_, hlen⟩ := hr
    rw [decide_eq_true_eq, hrt, hfilter] at hlen
    omega
  · intro h2
    obtain ⟨r, hr⟩ := List.exists_mem_of_length_pos
      (show 0 < (tripRecords g t).length by omega)
    have hr' := hr
    rw [tripRecords, List.mem_filter] at hr'
    obtain ⟨hrL, hrt⟩ := hr'
    have hrt' : r.trip_id = t := by
      rwa [beq_iff_eq] at hrt
    refine ⟨r, ?_, hrt'⟩
    rw [get_stop_times, List.mem_filter]
    constructor
    · rw [stop_times_dedup]
      exact mem_pydedup.mpr hrL
    · rw [decide_eq_true_eq, hrt', hfilter]
      omega

/-- Witness for C7: a table with two records of trip `T1` and one of `T2`;
the instantiated equivalence holds for trip `T1`. -/
theorem claim_c7_witness :
    (tripRecords [stRow (r"T1") (r"A") 1, stRow (r"T1") (r"B") 2,
        stRow (r"T2") (r"C") 1] (chars (r"T1"))).Nodup ∧
    ((∃ r ∈ get_stop_times [stRow (r"T1") (r"A") 1, stRow (r"T1") (r"B") 2,
          stRow (r"T2") (r"C") 1], r.trip_id = chars (r"T1")) ↔
      2 ≤ (tripRecords [stRow (r"T1") (r"A") 1, stRow (r"T1") (r"B") 2,
          stRow (r"T2") (r"C") 1] (chars (r"T1"))).length) :=
  ⟨by decide,
   claim_c7_short_trips_dropped
     [stRow (r"T1") (r"A") 1, stRow (r"T1") (r"B") 2, stRow (r"T2") (r"C") 1]
     (chars (r"T1")) (by decide)⟩


/-! ### Service-identifier lemmas -/

/-- Every row kept by the journey-id deduplication comes from the input. -/
theorem dedupByVjAux_subset :
    ∀ (seen : List (List Char)) (rows : List OutRow) (c : OutRow),
      c ∈ dedupByVjAux seen rows → c ∈ rows := by
  intro seen rows
  induction rows generalizing seen with
  | nil => intro c hc; exact absurd hc (by simp [dedupByVjAux])
  | cons b t ih =>
    intro c hc
    rw [dedupByVjAux] at hc
    by_cases hb : b.vehicle_journey_id ∈ seen
    · rw [if_pos hb] at hc
      exact List.mem_cons_of_mem b (ih seen c hc)
    · rw [if_neg hb] at hc
      rcases List.mem_cons.mp hc with rfl | hc
      · exact List.mem_cons_self c t
      · exact List.mem_cons_of_mem b (ih _ c hc)

/-- Every input row whose journey id is not yet seen has a representative
with the same journey id among the deduplicated rows. -/
theorem exists_dedupByVjAux_rep :
    ∀ (rows : List OutRow) (seen : List (List Char)) (r : OutRow),
      r ∈ rows → r.vehicle_journey_id ∉ seen →
      ∃ c ∈ dedupByVjAux seen rows,
        c.vehicle_journey_id = r.vehicle_journey_id := by
  intro rows
  induction rows with
  | nil => intro seen r hr; exact absurd hr (by simp)
  | cons b t ih =>
    intro seen r hr hseen
    rw [dedupByVjAux]
    by_cases hb : b.vehicle_journey_id ∈ seen
    · rw [if_pos hb]
      rcases List.mem_cons.mp hr with rfl | hr
      · exact absurd hb hseen
      · exact ih seen r hr hseen
    · rw [if_neg hb]
      by_cases hv : r.vehicle_journey_id = b.vehicle_journey_id
      · exact ⟨b, List.mem_cons_self b _, hv.symm⟩
      · rcases List.mem_cons.mp hr with rfl | hr
        · exact absurd rfl hv
        · obtain ⟨c, hc, hcv⟩ := ih (b.vehicle_journey_id :: seen) r hr
            (by simp [hv, hseen])
          exact ⟨c, List.mem_cons_of_mem b hc, hcv⟩

/-- Claim C5 as amended: `generate_service_id` groups by the weekly-pattern
string alone, so whenever the `weekdays` column is a function of the journey
id (which it is for materialized tables), any two rows with the same weekly
pattern receive the same calendar identifier — in particular rows agreeing on
all of service reference, start date, end date and weekly pattern do, but so
do rows differing in the first three fields, whose identifier is built from
the first row of their weekly-pattern group. -/
theorem claim_c5_grouping_by_weekdays_only :
    ∀ (rows : List OutRow) (r1 r2 : OutRow),
      r1 ∈ rows → r2 ∈ rows →
      (∀ a ∈ rows, ∀ b ∈ rows,
        a.vehicle_journey_id = b.vehicle_journey_id → a.weekdays = b.weekdays) →
      r1.weekdays = r2.weekdays →
      service_id_of rows r1 = service_id_of rows r2 := by
  intro rows r1 r2 h1 h2 hcons hw
  obtain ⟨c1, hc1mem, hc1v⟩ :=
    exists_dedupByVjAux_rep rows [] r1 h1 (by simp)
  obtain ⟨c2, hc2mem, hc2v⟩ :=
    exists_dedupByVjAux_rep rows [] r2 h2 (by simp)
  have hs1 : ((calendar_info rows).find?
      (fun c => c.vehicle_journey_id == r1.vehicle_journey_id)).isSome :=
    List.find?_isSome.mpr ⟨c1, hc1mem, by rw [beq_iff_eq]; exact hc1v⟩
  have hs2 : ((calendar_info rows).find?
      (fun c => c.vehicle_journey_id == r2.vehicle_journey_id)).isSome :=
    List.find?_isSome.mpr ⟨c2, hc2mem, by rw [beq_iff_eq]; exact hc2v⟩
  obtain ⟨d1, hd1⟩ := Option.isSome_iff_exists.mp hs1
  obtain ⟨d2, hd2⟩ := Option.isSome_iff_exists.mp hs2
  have hd1v : d1.vehicle_journey_id = r1.vehicle_journey_id := by
    have := List.find?_some hd1
    rwa [beq_iff_eq] at this
  have hd2v : d2.vehicle_journey_id = r2.vehicle_journey_id := by
    have := List.find?_some hd2
    rwa [beq_iff_eq] at this
  have hd1rows : d1 ∈ rows :=
    dedupByVjAux_subset [] rows d1 (List.mem_of_find?_eq_some hd1)
  have hd2rows : d2 ∈ rows :=
    dedupByVjAux_subset [] rows d2 (List.mem_of_find?_eq_some hd2)
  have hw1 : d1.weekdays = r1.weekdays := hcons d1 hd1rows r1 h1 hd1v
  have hw2 : d2.weekdays = r2.weekdays := hcons d2 hd2rows r2 h2 hd2v
  have hww : d1.weekdays = d2.weekdays := by rw [hw1, hw2, hw]
  unfold service_id_of
  simp only [hd1, hd2, hww]

/-- Counterexample for claim C5: two trips sharing the weekly pattern
`monday` but with different service references `S1` and `S2` are both
assigned the identifier built from the first trip — the claim's "different
field implies different identifier" direction fails. -/
theorem claim_c5_counterexample :
    (generate_service_id [sidRow (r"V1") (r"S1") (r"monday"),
        sidRow (r"V2") (r"S2") (r"monday")]).map (fun r => r.service_id) =
      [some (chars (r"S1_20240101_20991231_monday")),
       some (chars (r"S1_20240101_20991231_monday"))] ∧
    (sidRow (r"V2") (r"S2") (r"monday")).service_ref ≠
      (sidRow (r"V1") (r"S1") (r"monday")).service_ref :=
  ⟨rfl, by decide⟩

/-- Witness for the amended C5 at the two-row counterexample table. -/
theorem claim_c5_witness :
    sidRow (r"V1") (r"S1") (r"monday") ∈
      [sidRow (r"V1") (r"S1") (r"monday"), sidRow (r"V2") (r"S2") (r"monday")] ∧
    (sidRow (r"V1") (r"S1") (r"monday")).weekdays =
      (sidRow (r"V2") (r"S2") (r"monday")).weekdays ∧
    service_id_of
        [sidRow (r"V1") (r"S1") (r"monday"), sidRow (r"V2") (r"S2") (r"monday")]
        (sidRow (r"V1") (r"S1") (r"monday")) =
      service_id_of
        [sidRow (r"V1") (r"S1") (r"monday"), sidRow (r"V2") (r"S2") (r"monday")]
        (sidRow (r"V2") (r"S2") (r"monday")) :=
  ⟨by decide, by decide,
   claim_c5_grouping_by_weekdays_only
     [sidRow (r"V1") (r"S1") (r"monday"), sidRow (r"V2") (r"S2") (r"monday")]
     (sidRow (r"V1") (r"S1") (r"monday")) (sidRow (r"V2") (r"S2") (r"monday"))
     (by decide) (by decide) (by decide) (by decide)⟩

/-- Claim C9 as amended: a vehicle journey whose pattern reference selects no
row of the journey-pattern index makes the whole run fail with an uncaught
`IndexError` at the `values[0]` of transxchange.py line 148 — the journey is
not skipped and no later journey is processed. -/
theorem claim_c9_missing_pattern_aborts_run :
    ∀ (j : VehicleJourney) (rest : List VehicleJourney)
      (service_jp_info : List JPInfoRow) (sections : List JPSection)
      (svOp : Option (List Char)),
      service_jp_info.filter
          (fun r => r.journey_pattern_id == j.journeyPatternRef) = [] →
      process_vehicle_journeys (j :: rest) service_jp_info sections svOp =
        .error .indexError := by
  intro j rest info secs svOp h
  have hj : processJourney info secs svOp 0 none j = .error .indexError := by
    unfold processJourney
    simp [h]
  unfold process_vehicle_journeys processJourneys
  rw [hj]
  rfl

/-- Witness for the amended C9: the single bad journey of the counterexample
aborts even a one-journey run. -/
theorem claim_c9_witness :
    ([jpRow (r"S1")].filter
        (fun r => r.journey_pattern_id == journeyBadRef.journeyPatternRef) = []) ∧
    process_vehicle_journeys [journeyBadRef] [jpRow (r"S1")]
        [sectionMidnight] none = .error .indexError :=
  ⟨by decide,
   claim_c9_missing_pattern_aborts_run journeyBadRef [] [jpRow (r"S1")]
     [sectionMidnight] none (by decide)⟩

end TransX
